import Mathlib

/-!
Shallow embedding of the scratch-card core of the RaspadinhaKanpary
repository: the prize engine (`calculateScratchPrize`), round settlement
(`playScratchCard`) and first-deposit rollover activation
(`applyFirstDepositRollover`), together with theorems settling the frozen
claims about them.

Monetary amounts and the random draw are modelled as exact rationals (`ℚ`);
the database is modelled as a record holding the `users` table, the
append-only `game_rounds` table, and the `rtp_percentage` setting. SQL
transaction semantics are modelled explicitly: mutations of a round are
published only at COMMIT, and every failure branch returns the pre-state
(the ROLLBACK). Storage queries are instrumented with a trace of operations
and a failure oracle `failAt` so that claims about what touches storage, and
about failures at any step, are statable.
-/

namespace Raspadinha

/-- One row of the `users` table, restricted to the columns the core
reads and writes: `balance`, `rollover_required`, `first_deposit_made`. -/
structure UserRow where
  balance : ℚ
  rolloverRequired : ℚ
  firstDepositMade : Bool
deriving DecidableEq, Repr

/-- One row of the append-only `game_rounds` table, as inserted by
`playScratchCard`: `(user_id, game_type, bet_amount, prize_amount,
multiplier, result_data)` where `result_data` records the RTP in effect. -/
structure GameRound where
  userId : Nat
  gameType : String
  betAmount : ℚ
  prizeAmount : ℚ
  multiplier : ℚ
  resultRtp : ℚ
deriving DecidableEq, Repr

/-- The database state visible to the core: the `users` table keyed by id,
the `game_rounds` table, and the parsed value of the
`settings` row for key `rtp_percentage` (`none` models a NULL / absent
setting, in which case the code falls back to 95.0). -/
structure Db where
  users : Nat → Option UserRow
  rounds : List GameRound
  rtpSetting : Option ℚ

/-- The allowed stake values (`ALLOWED_BETS` in the source). -/
def ALLOWED_BETS : List ℚ :=
  [1/2, 1, 3/2, 2, 3, 5, 10, 15, 20, 25, 30, 35, 40, 45, 50]

/-- JavaScript rounding to 2 decimal places as the source performs it:
`Math.round(x * 100) / 100`, where `Math.round y = ⌊y + 1/2⌋` (ties go
up). `betAmount.toFixed(2)` rounds the same way for the values at hand. -/
def round2 (x : ℚ) : ℚ := (⌊x * 100 + 1/2⌋ : ℚ) / 100

/-- The bet-dependent probability bonus of `calculateScratchPrize`
(descending `if betAmount >= …` chain, exactly as in the source). -/
def bonusChance (betAmount : ℚ) : ℚ :=
  if betAmount ≥ 50 then 15/100
  else if betAmount ≥ 30 then 12/100
  else if betAmount ≥ 20 then 9/100
  else if betAmount ≥ 10 then 6/100
  else if betAmount ≥ 5 then 3/100
  else 0

/-- The base multiplier chosen by `calculateScratchPrize` from one uniform
draw `random`, via the ascending threshold cut points of the source. -/
def baseMultiplier (betAmount random : ℚ) : ℚ :=
  let bc := bonusChance betAmount
  let threshold1 := 2/100 + bc * (15/100)
  let threshold2 := 7/100 + bc * (30/100)
  let threshold3 := 22/100 + bc * (40/100)
  let threshold4 := 50/100 + bc * (15/100)
  if random < threshold1 then 10
  else if random < threshold2 then 5
  else if random < threshold3 then 2
  else if random < threshold4 then 1
  else 0

/-- Result of the prize engine: the (RTP-adjusted) multiplier and the
rounded prize amount. -/
structure PrizeResult where
  multiplier : ℚ
  prizeAmount : ℚ
deriving DecidableEq, Repr

/-- Function `calculateScratchPrize` from the source, with the `Math.random()` draw
made an explicit argument `random`. The chosen base multiplier is scaled by
`rtpPercentage / 95.0` and the prize is `round2 (betAmount * adjusted)`. -/
def calculateScratchPrize (betAmount rtpPercentage random : ℚ) : PrizeResult :=
  let multiplier := baseMultiplier betAmount random
  let rtpFactor := rtpPercentage / 95
  let adjustedMultiplier := multiplier * rtpFactor
  let prizeAmount := betAmount * adjustedMultiplier
  { multiplier := adjustedMultiplier, prizeAmount := round2 prizeAmount }

/-- The bonus-chance step function as the spec words it, with ascending
half-open intervals: 0 below 5; 0.03 at [5,10); 0.06 at [10,20); 0.09 at
[20,30); 0.12 at [30,50); 0.15 at ≥ 50. Spec-side definition, to be
compared with the source-side `bonusChance`. -/
def bonusChanceSpec (betAmount : ℚ) : ℚ :=
  if betAmount < 5 then 0
  else if betAmount < 10 then 3/100
  else if betAmount < 20 then 6/100
  else if betAmount < 30 then 9/100
  else if betAmount < 50 then 12/100
  else 15/100

/-- The prize-engine algorithm exactly as the spec describes it:
thresholds `t1 = 0.02 + bonusChance*0.15`, `t2 = 0.07 + bonusChance*0.30`,
`t3 = 0.22 + bonusChance*0.40`, `t4 = 0.50 + bonusChance*0.15`; base
multiplier 10/5/2/1/0 by the half-open bands of `r` in ascending order;
multiplier scaled by `rtpPercentage/95`; prize rounded half-up to 2
decimals. Spec-side definition, to be compared with
`calculateScratchPrize`. -/
def computePrizeSpec (betAmount rtpPercentage random : ℚ) : PrizeResult :=
  let bc := bonusChanceSpec betAmount
  let t1 := 2/100 + bc * (15/100)
  let t2 := 7/100 + bc * (30/100)
  let t3 := 22/100 + bc * (40/100)
  let t4 := 50/100 + bc * (15/100)
  let base : ℚ :=
    if random < t1 then 10
    else if random < t2 then 5
    else if random < t3 then 2
    else if random < t4 then 1
    else 0
  let adjusted := base * (rtpPercentage / 95)
  { multiplier := adjusted, prizeAmount := round2 (betAmount * adjusted) }

/-- Typed failures of `playScratchCard`, one per `throw` site plus the
storage-failure case of the error taxonomy in the spec. -/
inductive PlayError where
  | InvalidBet
  | NotFound
  | InsufficientFunds
  | StorageFailure
deriving DecidableEq, Repr

/-- The success payload of `playScratchCard`:
`{success: true, prize, finalBalance, multiplier, betAmount}`. -/
structure PlayResult where
  prize : ℚ
  finalBalance : ℚ
  multiplier : ℚ
  betAmount : ℚ
deriving DecidableEq, Repr

/-- Storage operations issued by one `playScratchCard` call, in order:
`BEGIN`, the `SELECT … FOR UPDATE` row lock, the settings query, the
`UPDATE users` write, the `INSERT INTO game_rounds` write, `COMMIT`,
`ROLLBACK`. -/
inductive StorageOp where
  | beginTx
  | selectForUpdate
  | getSettingQ
  | updateUsers
  | insertRound
  | commitTx
  | rollback
deriving DecidableEq, Repr

/-- Outcome of one `playScratchCard` call: the returned value or error,
the database state after the call (reflecting COMMIT or ROLLBACK), and the
trace of storage operations the call issued. -/
structure PlayOutcome where
  result : Except PlayError PlayResult
  db : Db
  ops : List StorageOp

/-- The RTP used by a round: the configured setting, or 95.0 when the
setting is NULL (`rtpString ? parseFloat(rtpString) : 95.0`). -/
def effectiveRtp (db : Db) : ℚ :=
  match db.rtpSetting with
  | none => 95
  | some v => v

/-- Failure oracle meaning every storage query succeeds. -/
def noFail : Nat → Bool := fun _ => false

/-- Function `playScratchCard` from the source, with the random draw and a storage
failure oracle explicit. `failAt i = true` means the i-th storage query of
the transaction (0 = BEGIN, 1 = SELECT FOR UPDATE, 2 = settings query,
3 = UPDATE users, 4 = INSERT game_rounds, 5 = COMMIT) throws, landing in
the catch block that issues ROLLBACK. Writes are transaction-local until
COMMIT, so every failure branch returns the unchanged pre-state `db`,
which is exactly what ROLLBACK produces; the op trace records which
storage queries were issued before the round ended. -/
def playScratchCard (db : Db) (userId : Nat) (betAmount : ℚ) (random : ℚ)
    (failAt : Nat → Bool) : PlayOutcome :=
  if round2 betAmount ∉ ALLOWED_BETS then
    ⟨Except.error PlayError.InvalidBet, db, []⟩
  else if failAt 0 then
    ⟨Except.error PlayError.StorageFailure, db,
      [StorageOp.beginTx, StorageOp.rollback]⟩
  else if failAt 1 then
    ⟨Except.error PlayError.StorageFailure, db,
      [StorageOp.beginTx, StorageOp.selectForUpdate, StorageOp.rollback]⟩
  else
    match db.users userId with
    | none =>
      ⟨Except.error PlayError.NotFound, db,
        [StorageOp.beginTx, StorageOp.selectForUpdate, StorageOp.rollback]⟩
    | some user =>
      if user.balance < betAmount then
        ⟨Except.error PlayError.InsufficientFunds, db,
          [StorageOp.beginTx, StorageOp.selectForUpdate, StorageOp.rollback]⟩
      else if failAt 2 then
        ⟨Except.error PlayError.StorageFailure, db,
          [StorageOp.beginTx, StorageOp.selectForUpdate, StorageOp.getSettingQ,
            StorageOp.rollback]⟩
      else
        let rtpPercentage := effectiveRtp db
        let pr := calculateScratchPrize betAmount rtpPercentage random
        let newBalance := user.balance - betAmount + pr.prizeAmount
        let newRollover := max 0 (user.rolloverRequired - betAmount)
        if failAt 3 then
          ⟨Except.error PlayError.StorageFailure, db,
            [StorageOp.beginTx, StorageOp.selectForUpdate, StorageOp.getSettingQ,
              StorageOp.updateUsers, StorageOp.rollback]⟩
        else if failAt 4 then
          ⟨Except.error PlayError.StorageFailure, db,
            [StorageOp.beginTx, StorageOp.selectForUpdate, StorageOp.getSettingQ,
              StorageOp.updateUsers, StorageOp.insertRound, StorageOp.rollback]⟩
        else if failAt 5 then
          ⟨Except.error PlayError.StorageFailure, db,
            [StorageOp.beginTx, StorageOp.selectForUpdate, StorageOp.getSettingQ,
              StorageOp.updateUsers, StorageOp.insertRound, StorageOp.commitTx,
              StorageOp.rollback]⟩
        else
          ⟨Except.ok ⟨pr.prizeAmount, newBalance, pr.multiplier, betAmount⟩,
            ⟨fun u =>
              if u = userId then
                some ⟨newBalance, newRollover, user.firstDepositMade⟩
              else db.users u,
              db.rounds ++
                [⟨userId, "scratch_card", betAmount, pr.prizeAmount,
                  pr.multiplier, rtpPercentage⟩],
              db.rtpSetting⟩,
            [StorageOp.beginTx, StorageOp.selectForUpdate, StorageOp.getSettingQ,
              StorageOp.updateUsers, StorageOp.insertRound, StorageOp.commitTx]⟩

/-- Function `applyFirstDepositRollover` from the source: one conditional
`UPDATE … WHERE id = $2 AND first_deposit_made = false` that increments
`rollover_required` and sets the flag, returning whether a row was
updated. A missing user and an already-set flag both update zero rows and
return `false` without error. -/
def applyFirstDepositRollover (db : Db) (userId : Nat) (amount : ℚ) :
    Bool × Db :=
  match db.users userId with
  | none => (false, db)
  | some user =>
    if user.firstDepositMade then (false, db)
    else
      (true,
        ⟨fun u =>
          if u = userId then
            some ⟨user.balance, user.rolloverRequired + amount, true⟩
          else db.users u,
          db.rounds, db.rtpSetting⟩)

/-- A concrete user for witnesses: balance 10, rollover 8, first deposit
not yet made. -/
def wUser : UserRow := ⟨10, 8, false⟩

/-- A concrete one-user database (id 0 holds `wUser`, NULL RTP setting)
for witnesses. -/
def wDb : Db := ⟨fun u => if u = 0 then some wUser else none, [], none⟩

/-- A concrete empty database for witnesses and counterexamples. -/
def emptyDb : Db := ⟨fun _ => none, [], none⟩

/-!  Theorems: general lemmas about the embedded operations, then one
theorem per claim with its witness or counterexample. -/

/-- The descending `≥`-chain of the source and the ascending half-open
intervals define the same bonus-chance step function. -/
theorem bonusChance_eq_spec (betAmount : ℚ) :
    bonusChance betAmount = bonusChanceSpec betAmount := by
  unfold bonusChance bonusChanceSpec
  split_ifs <;> first | rfl | linarith

/-- The base multiplier always lies in {0, 1, 2, 5, 10}. -/
theorem baseMultiplier_mem (betAmount random : ℚ) :
    baseMultiplier betAmount random ∈ ([0, 1, 2, 5, 10] : List ℚ) := by
  simp only [baseMultiplier]
  split_ifs <;> simp

/-- The base multiplier is non-negative. -/
theorem baseMultiplier_nonneg (betAmount random : ℚ) :
    0 ≤ baseMultiplier betAmount random := by
  simp only [baseMultiplier]
  split_ifs <;> norm_num

/-- Rounding a non-negative amount with `round2` stays non-negative. -/
theorem round2_nonneg {x : ℚ} (hx : 0 ≤ x) : 0 ≤ round2 x := by
  unfold round2
  have h : (0 : ℤ) ≤ ⌊x * 100 + 1/2⌋ := by
    apply Int.le_floor.mpr
    push_cast
    linarith
  positivity

/-- Rounding moves the argument by less than half a cent:
`round2 x ≤ x + 1/200`. -/
theorem round2_le {x : ℚ} : round2 x ≤ x + 1/200 := by
  unfold round2
  have h : (⌊x * 100 + 1/2⌋ : ℚ) ≤ x * 100 + 1/2 := Int.floor_le _
  linarith

/-- A bet the validation accepts (its `round2` is in `ALLOWED_BETS`) is
strictly positive: every allowed value is at least 1/2, and `round2`
overshoots by at most 1/200. -/
theorem accepted_bet_pos {b : ℚ} (h : round2 b ∈ ALLOWED_BETS) : 0 < b := by
  have hge : (1/2 : ℚ) ≤ round2 b := by
    simp only [ALLOWED_BETS, List.mem_cons, List.not_mem_nil, or_false] at h
    rcases h with h | h | h | h | h | h | h | h | h | h | h | h | h | h | h <;>
      rw [h] <;> norm_num
  have := round2_le (x := b)
  linarith

/-- With a non-negative bet and non-negative RTP the prize is
non-negative. -/
theorem prizeAmount_nonneg (bet rtp rnd : ℚ) (hbet : 0 ≤ bet)
    (hrtp : 0 ≤ rtp) : 0 ≤ (calculateScratchPrize bet rtp rnd).prizeAmount := by
  simp only [calculateScratchPrize]
  apply round2_nonneg
  have hm := baseMultiplier_nonneg bet rnd
  have hf : 0 ≤ rtp / 95 := by positivity
  exact mul_nonneg hbet (mul_nonneg hm hf)

/-- Branch equation: a bet whose `round2` is not allowed is rejected with
`InvalidBet` before any storage operation, for every failure oracle. -/
theorem play_invalid (db : Db) (uid : Nat) (bet rnd : ℚ) (failAt : Nat → Bool)
    (hb : round2 bet ∉ ALLOWED_BETS) :
    playScratchCard db uid bet rnd failAt =
      ⟨Except.error PlayError.InvalidBet, db, []⟩ := by
  unfold playScratchCard
  rw [if_pos hb]

/-- Branch equation: allowed bet, missing user, no storage failure. -/
theorem play_notFound (db : Db) (uid : Nat) (bet rnd : ℚ)
    (hb : round2 bet ∈ ALLOWED_BETS) (hu : db.users uid = none) :
    playScratchCard db uid bet rnd noFail =
      ⟨Except.error PlayError.NotFound, db,
        [StorageOp.beginTx, StorageOp.selectForUpdate, StorageOp.rollback]⟩ := by
  unfold playScratchCard noFail
  simp only [hb, hu, not_true_eq_false, if_false, Bool.false_eq_true, ite_false]

/-- Branch equation: allowed bet, existing user, balance below the bet, no
storage failure. -/
theorem play_insufficient (db : Db) (uid : Nat) (bet rnd : ℚ) (user : UserRow)
    (hb : round2 bet ∈ ALLOWED_BETS) (hu : db.users uid = some user)
    (hbal : user.balance < bet) :
    playScratchCard db uid bet rnd noFail =
      ⟨Except.error PlayError.InsufficientFunds, db,
        [StorageOp.beginTx, StorageOp.selectForUpdate, StorageOp.rollback]⟩ := by
  unfold playScratchCard noFail
  simp only [hb, hu, hbal, not_true_eq_false, if_false, Bool.false_eq_true,
    ite_false, ite_true, if_true]

/-- Branch equation: the fully successful round, spelling out the returned
payload, the committed database and the op trace. -/
theorem play_success (db : Db) (uid : Nat) (bet rnd : ℚ) (user : UserRow)
    (hb : round2 bet ∈ ALLOWED_BETS) (hu : db.users uid = some user)
    (hbal : ¬ user.balance < bet) :
    playScratchCard db uid bet rnd noFail =
      ⟨Except.ok ⟨(calculateScratchPrize bet (effectiveRtp db) rnd).prizeAmount,
          user.balance - bet +
            (calculateScratchPrize bet (effectiveRtp db) rnd).prizeAmount,
          (calculateScratchPrize bet (effectiveRtp db) rnd).multiplier, bet⟩,
        ⟨fun u =>
          if u = uid then
            some ⟨user.balance - bet +
                (calculateScratchPrize bet (effectiveRtp db) rnd).prizeAmount,
              max 0 (user.rolloverRequired - bet), user.firstDepositMade⟩
          else db.users u,
          db.rounds ++
            [⟨uid, "scratch_card", bet,
              (calculateScratchPrize bet (effectiveRtp db) rnd).prizeAmount,
              (calculateScratchPrize bet (effectiveRtp db) rnd).multiplier,
              effectiveRtp db⟩],
          db.rtpSetting⟩,
        [StorageOp.beginTx, StorageOp.selectForUpdate, StorageOp.getSettingQ,
          StorageOp.updateUsers, StorageOp.insertRound, StorageOp.commitTx]⟩ := by
  unfold playScratchCard noFail
  simp only [hb, hu, hbal, not_true_eq_false, if_false, Bool.false_eq_true,
    ite_false, ite_true, if_true]

/-- C4: for every betAmount > 0, rtpPercentage, and random draw r in [0,1),
`calculateScratchPrize` returns exactly the result of the algorithm the
spec states — the bonus-chance step function of the bet, the four
thresholds `0.02 + bc*0.15`, `0.07 + bc*0.30`, `0.22 + bc*0.40`,
`0.50 + bc*0.15`, the base multiplier 10/5/2/1/0 by the half-open bands of
r in ascending order, and the prize `betAmount * (base * rtp/95)` rounded
half-up to 2 decimal places. -/
theorem calculateScratchPrize_eq_spec (betAmount rtpPercentage random : ℚ)
    (_hbet : 0 < betAmount) (_h0 : 0 ≤ random) (_h1 : random < 1) :
    calculateScratchPrize betAmount rtpPercentage random =
      computePrizeSpec betAmount rtpPercentage random := by
  simp only [calculateScratchPrize, computePrizeSpec, baseMultiplier,
    bonusChance_eq_spec]

/-- Witness for C4 at betAmount 10, RTP 80, draw 1/2. -/
theorem calculateScratchPrize_eq_spec_witness :
    (0:ℚ) < 10 ∧ (0:ℚ) ≤ 1/2 ∧ (1/2:ℚ) < 1 ∧
      calculateScratchPrize 10 80 (1/2) = computePrizeSpec 10 80 (1/2) :=
  ⟨by norm_num, by norm_num, by norm_num,
    calculateScratchPrize_eq_spec 10 80 (1/2) (by norm_num) (by norm_num)
      (by norm_num)⟩

/-- C5: for every bet and fixed draw, the multiplier returned at RTP 95 is
in {0, 1, 2, 5, 10}, and at any RTP the returned multiplier is the RTP-95
multiplier scaled by rtp/95. -/
theorem multiplier_scaling (betAmount rtpPercentage random : ℚ) :
    (calculateScratchPrize betAmount 95 random).multiplier ∈
        ([0, 1, 2, 5, 10] : List ℚ)
    ∧ (calculateScratchPrize betAmount rtpPercentage random).multiplier =
        (calculateScratchPrize betAmount 95 random).multiplier *
          (rtpPercentage / 95) := by
  have h95 : (95:ℚ) / 95 = 1 := by norm_num
  constructor
  · simpa [calculateScratchPrize, h95] using baseMultiplier_mem betAmount random
  · simp only [calculateScratchPrize, h95, mul_one]

/-- C2: first-deposit rollover activation is exactly-once: on a user whose
flag is unset, the first call returns `true` and increments the rollover by
its amount while setting the flag; a second call (any amount) returns
`false` and changes nothing; and in general any call on a user whose
`firstDepositMade` flag is already `true` is a silent no-op returning
`false`. -/
theorem applyFirstDepositRollover_once (db : Db) (uid : Nat) (a1 a2 : ℚ)
    (user : UserRow) (hu : db.users uid = some user)
    (hf : user.firstDepositMade = false) :
    (applyFirstDepositRollover db uid a1).1 = true
    ∧ ((applyFirstDepositRollover db uid a1).2).users uid =
        some ⟨user.balance, user.rolloverRequired + a1, true⟩
    ∧ applyFirstDepositRollover ((applyFirstDepositRollover db uid a1).2) uid a2 =
        (false, (applyFirstDepositRollover db uid a1).2)
    ∧ ∀ (db2 : Db) (uid2 : Nat) (a : ℚ) (u2 : UserRow),
        db2.users uid2 = some u2 → u2.firstDepositMade = true →
        applyFirstDepositRollover db2 uid2 a = (false, db2) := by
  have hgen : ∀ (db2 : Db) (uid2 : Nat) (a : ℚ) (u2 : UserRow),
      db2.users uid2 = some u2 → u2.firstDepositMade = true →
      applyFirstDepositRollover db2 uid2 a = (false, db2) := by
    intro db2 uid2 a u2 h2 hf2
    unfold applyFirstDepositRollover
    rw [h2]
    simp [hf2]
  have h1 : applyFirstDepositRollover db uid a1 =
      (true, ⟨fun u =>
          if u = uid then some ⟨user.balance, user.rolloverRequired + a1, true⟩
          else db.users u,
        db.rounds, db.rtpSetting⟩) := by
    unfold applyFirstDepositRollover
    rw [hu]
    simp [hf]
  have husers1 : ((applyFirstDepositRollover db uid a1).2).users uid =
      some ⟨user.balance, user.rolloverRequired + a1, true⟩ := by
    rw [h1]
    simp
  exact ⟨by rw [h1], husers1, hgen _ _ _ _ husers1 rfl, hgen⟩

/-- Witness for C2: user 0 of `wDb` (flag unset), amounts 500 then 200. -/
theorem applyFirstDepositRollover_once_witness :
    wDb.users 0 = some wUser ∧ wUser.firstDepositMade = false ∧
      (applyFirstDepositRollover wDb 0 500).1 = true ∧
      ((applyFirstDepositRollover wDb 0 500).2).users 0 =
        some ⟨wUser.balance, wUser.rolloverRequired + 500, true⟩ :=
  ⟨rfl, rfl, (applyFirstDepositRollover_once wDb 0 500 200 wUser rfl rfl).1,
    (applyFirstDepositRollover_once wDb 0 500 200 wUser rfl rfl).2.1⟩

/-- C9: on a missing user, `applyFirstDepositRollover` returns `false`
without error and changes no state, and its boolean return is the same as
for a user whose first deposit was already activated. -/
theorem applyFirstDepositRollover_missing (db : Db) (uid : Nat) (a : ℚ)
    (hu : db.users uid = none) :
    applyFirstDepositRollover db uid a = (false, db)
    ∧ ∀ (db2 : Db) (uid2 : Nat) (a2 : ℚ) (u2 : UserRow),
        db2.users uid2 = some u2 → u2.firstDepositMade = true →
        (applyFirstDepositRollover db uid a).1 =
          (applyFirstDepositRollover db2 uid2 a2).1 := by
  have h1 : applyFirstDepositRollover db uid a = (false, db) := by
    unfold applyFirstDepositRollover
    rw [hu]
  refine ⟨h1, ?_⟩
  intro db2 uid2 a2 u2 h2 hf2
  have h3 : applyFirstDepositRollover db2 uid2 a2 = (false, db2) := by
    unfold applyFirstDepositRollover
    rw [h2]
    simp [hf2]
  rw [h1, h3]

/-- Witness for C9: user 3 does not exist in the empty database. -/
theorem applyFirstDepositRollover_missing_witness :
    emptyDb.users 3 = none ∧
      applyFirstDepositRollover emptyDb 3 100 = (false, emptyDb) :=
  ⟨rfl, (applyFirstDepositRollover_missing emptyDb 3 100 rfl).1⟩

/-- C1: after any committed round on a user with non-negative balance and
rollover, with a non-negative effective RTP, the committed state keeps
balance ≥ 0 and rollover ≥ 0, and the rollover never increases. -/
theorem playScratchCard_invariants (db : Db) (uid : Nat) (bet rnd : ℚ)
    (user : UserRow) (hu : db.users uid = some user)
    (_hb0 : 0 ≤ user.balance) (hr0 : 0 ≤ user.rolloverRequired)
    (hrtp : 0 ≤ effectiveRtp db) (res : PlayResult)
    (h : (playScratchCard db uid bet rnd noFail).result = Except.ok res)
    (u2 : UserRow)
    (hu2 : ((playScratchCard db uid bet rnd noFail).db).users uid = some u2) :
    0 ≤ u2.balance ∧ 0 ≤ u2.rolloverRequired ∧
      u2.rolloverRequired ≤ user.rolloverRequired := by
  by_cases hb : round2 bet ∈ ALLOWED_BETS
  · by_cases hbal : user.balance < bet
    · rw [play_insufficient db uid bet rnd user hb hu hbal] at h
      exact absurd h (by simp)
    · rw [play_success db uid bet rnd user hb hu hbal] at hu2
      simp only [ite_true, if_pos, Option.some.injEq] at hu2
      obtain ⟨b2, r2, f2⟩ := u2
      simp only [UserRow.mk.injEq] at hu2
      obtain ⟨hb2, hr2, hf2⟩ := hu2
      have hbetpos := accepted_bet_pos hb
      have hprize := prizeAmount_nonneg bet (effectiveRtp db) rnd
        (le_of_lt hbetpos) hrtp
      push_neg at hbal
      refine ⟨?_, ?_, ?_⟩
      · simp only [← hb2]
        linarith
      · simp only [← hr2]
        exact le_max_left 0 _
      · simp only [← hr2]
        exact max_le hr0 (by linarith)
  · rw [play_invalid db uid bet rnd noFail hb] at h
    exact absurd h (by simp)

/-- Witness for C1: user 0 of `wDb` (balance 10, rollover 8) plays bet 5
with draw 0 and wins multiplier 10, committing balance 55, rollover 3. -/
theorem playScratchCard_invariants_witness :
    0 ≤ (⟨55, 3, false⟩ : UserRow).balance ∧
      0 ≤ (⟨55, 3, false⟩ : UserRow).rolloverRequired ∧
      (⟨55, 3, false⟩ : UserRow).rolloverRequired ≤ wUser.rolloverRequired :=
  playScratchCard_invariants wDb 0 5 0 wUser rfl (by norm_num [wUser])
    (by norm_num [wUser]) (by norm_num [effectiveRtp, wDb]) ⟨50, 55, 10, 5⟩
    (by norm_num [playScratchCard, noFail, wDb, wUser, round2, ALLOWED_BETS,
      effectiveRtp, calculateScratchPrize, baseMultiplier, bonusChance])
    ⟨55, 3, false⟩
    (by norm_num [playScratchCard, noFail, wDb, wUser, round2, ALLOWED_BETS,
      effectiveRtp, calculateScratchPrize, baseMultiplier, bonusChance])

/-- C7: a successful round with pre-state balance b and rollover r commits
balance `b - bet + prize`, rollover `max 0 (r - bet)`, and appends exactly
one game-round record with the bet, the prize, the multiplier and the RTP
in effect, where prize and multiplier are the Prize Engine result for this
round. -/
theorem playScratchCard_settlement (db : Db) (uid : Nat) (bet rnd : ℚ)
    (user : UserRow) (hu : db.users uid = some user) (res : PlayResult)
    (h : (playScratchCard db uid bet rnd noFail).result = Except.ok res) :
    ((playScratchCard db uid bet rnd noFail).db).users uid =
      some ⟨user.balance - bet +
          (calculateScratchPrize bet (effectiveRtp db) rnd).prizeAmount,
        max 0 (user.rolloverRequired - bet), user.firstDepositMade⟩
    ∧ (playScratchCard db uid bet rnd noFail).db.rounds =
        db.rounds ++
          [⟨uid, "scratch_card", bet,
            (calculateScratchPrize bet (effectiveRtp db) rnd).prizeAmount,
            (calculateScratchPrize bet (effectiveRtp db) rnd).multiplier,
            effectiveRtp db⟩]
    ∧ res = ⟨(calculateScratchPrize bet (effectiveRtp db) rnd).prizeAmount,
        user.balance - bet +
          (calculateScratchPrize bet (effectiveRtp db) rnd).prizeAmount,
        (calculateScratchPrize bet (effectiveRtp db) rnd).multiplier, bet⟩ := by
  by_cases hb : round2 bet ∈ ALLOWED_BETS
  · by_cases hbal : user.balance < bet
    · rw [play_insufficient db uid bet rnd user hb hu hbal] at h
      exact absurd h (by simp)
    · have hs := play_success db uid bet rnd user hb hu hbal
      rw [hs] at h ⊢
      simp only [Except.ok.injEq] at h
      exact ⟨by simp, by simp, h.symm⟩
  · rw [play_invalid db uid bet rnd noFail hb] at h
    exact absurd h (by simp)

/-- Witness for C7: the committed round of user 0 in `wDb` at bet 5. -/
theorem playScratchCard_settlement_witness :
    ((playScratchCard wDb 0 5 0 noFail).db).users 0 =
      some ⟨wUser.balance - 5 +
          (calculateScratchPrize 5 (effectiveRtp wDb) 0).prizeAmount,
        max 0 (wUser.rolloverRequired - 5), wUser.firstDepositMade⟩ :=
  (playScratchCard_settlement wDb 0 5 0 wUser rfl ⟨50, 55, 10, 5⟩
    (by norm_num [playScratchCard, noFail, wDb, wUser, round2, ALLOWED_BETS,
      effectiveRtp, calculateScratchPrize, baseMultiplier, bonusChance])).1

/-- C8: when the `rtp_percentage` setting is NULL, a committed round uses
the default RTP 95.0 for the prize, the multiplier and the recorded
round. -/
theorem playScratchCard_default_rtp (db : Db) (uid : Nat) (bet rnd : ℚ)
    (hnull : db.rtpSetting = none) (res : PlayResult)
    (h : (playScratchCard db uid bet rnd noFail).result = Except.ok res) :
    res.prize = (calculateScratchPrize bet 95 rnd).prizeAmount
    ∧ res.multiplier = (calculateScratchPrize bet 95 rnd).multiplier
    ∧ (playScratchCard db uid bet rnd noFail).db.rounds =
        db.rounds ++
          [⟨uid, "scratch_card", bet,
            (calculateScratchPrize bet 95 rnd).prizeAmount,
            (calculateScratchPrize bet 95 rnd).multiplier, 95⟩] := by
  have hrtp : effectiveRtp db = 95 := by
    unfold effectiveRtp
    rw [hnull]
  by_cases hb : round2 bet ∈ ALLOWED_BETS
  · cases hue : db.users uid with
    | none =>
      rw [play_notFound db uid bet rnd hb hue] at h
      exact absurd h (by simp)
    | some user =>
      by_cases hbal : user.balance < bet
      · rw [play_insufficient db uid bet rnd user hb hue hbal] at h
        exact absurd h (by simp)
      · have hs := play_success db uid bet rnd user hb hue hbal
        rw [hrtp] at hs
        rw [hs] at h ⊢
        simp only [Except.ok.injEq] at h
        rw [← h]
        exact ⟨rfl, rfl, by simp⟩
  · rw [play_invalid db uid bet rnd noFail hb] at h
    exact absurd h (by simp)

/-- Witness for C8: `wDb` has a NULL RTP setting and user 0 commits a
round at bet 5 with prize computed at RTP 95. -/
theorem playScratchCard_default_rtp_witness :
    (⟨50, 55, 10, 5⟩ : PlayResult).prize =
      (calculateScratchPrize 5 95 0).prizeAmount :=
  (playScratchCard_default_rtp wDb 0 5 0 rfl ⟨50, 55, 10, 5⟩
    (by norm_num [playScratchCard, noFail, wDb, wUser, round2, ALLOWED_BETS,
      effectiveRtp, calculateScratchPrize, baseMultiplier, bonusChance])).1

/-- C10: a bet whose half-up rounding to 2 decimals is allowed (0.504, for
example) is accepted, and the original unrounded bet — not the rounded
value — is what the insufficient-funds check compares against, what is
deducted from the balance, what reduces the rollover, and what the prize
is computed from. -/
theorem playScratchCard_unrounded_bet (db : Db) (uid : Nat) (bet rnd : ℚ)
    (hb : round2 bet ∈ ALLOWED_BETS) (user : UserRow)
    (hu : db.users uid = some user) :
    (playScratchCard db uid bet rnd noFail).result ≠
        Except.error PlayError.InvalidBet
    ∧ ((playScratchCard db uid bet rnd noFail).result =
          Except.error PlayError.InsufficientFunds ↔ user.balance < bet)
    ∧ (¬ user.balance < bet →
        ((playScratchCard db uid bet rnd noFail).db).users uid =
            some ⟨user.balance - bet +
                (calculateScratchPrize bet (effectiveRtp db) rnd).prizeAmount,
              max 0 (user.rolloverRequired - bet), user.firstDepositMade⟩
          ∧ (playScratchCard db uid bet rnd noFail).db.rounds =
              db.rounds ++
                [⟨uid, "scratch_card", bet,
                  (calculateScratchPrize bet (effectiveRtp db) rnd).prizeAmount,
                  (calculateScratchPrize bet (effectiveRtp db) rnd).multiplier,
                  effectiveRtp db⟩]) := by
  by_cases hbal : user.balance < bet
  · rw [play_insufficient db uid bet rnd user hb hu hbal]
    exact ⟨by simp, by simp [hbal], fun hc => absurd hbal hc⟩
  · rw [play_success db uid bet rnd user hb hu hbal]
    exact ⟨by simp, by simp [hbal], fun _ => ⟨by simp, by simp⟩⟩

/-- Witness for C10 at the unrounded bet 0.504 (= 63/125), whose rounding
0.50 is allowed. -/
theorem playScratchCard_unrounded_bet_witness :
    round2 (63/125) ∈ ALLOWED_BETS ∧
      (playScratchCard wDb 0 (63/125) 0 noFail).result ≠
        Except.error PlayError.InvalidBet :=
  ⟨by norm_num [round2, ALLOWED_BETS],
    (playScratchCard_unrounded_bet wDb 0 (63/125) 0
      (by norm_num [round2, ALLOWED_BETS]) wUser rfl).1⟩

/-- C6: with storage healthy, a round fails with `InvalidBet` iff the bet
does not round to an allowed value; otherwise with `NotFound` iff the user
does not exist; otherwise with `InsufficientFunds` iff the balance is
strictly below the bet — the checks are applied in exactly this order. -/
theorem playScratchCard_validation_order (db : Db) (uid : Nat) (bet rnd : ℚ) :
    ((playScratchCard db uid bet rnd noFail).result =
        Except.error PlayError.InvalidBet ↔ round2 bet ∉ ALLOWED_BETS)
    ∧ (round2 bet ∈ ALLOWED_BETS →
        ((playScratchCard db uid bet rnd noFail).result =
            Except.error PlayError.NotFound ↔ db.users uid = none))
    ∧ (∀ user : UserRow, round2 bet ∈ ALLOWED_BETS → db.users uid = some user →
        ((playScratchCard db uid bet rnd noFail).result =
            Except.error PlayError.InsufficientFunds ↔ user.balance < bet)) := by
  by_cases hb : round2 bet ∈ ALLOWED_BETS
  · cases hue : db.users uid with
    | none =>
      rw [play_notFound db uid bet rnd hb hue]
      refine ⟨by simp [hb], fun _ => by simp, ?_⟩
      intro user _ hsome
      exact absurd hsome (by simp)
    | some user =>
      by_cases hbal : user.balance < bet
      · rw [play_insufficient db uid bet rnd user hb hue hbal]
        refine ⟨by simp [hb], fun _ => by simp, ?_⟩
        intro user2 _ hsome
        injection hsome with he
        subst he
        simp [hbal]
      · rw [play_success db uid bet rnd user hb hue hbal]
        refine ⟨by simp [hb], fun _ => by simp, ?_⟩
        intro user2 _ hsome
        injection hsome with he
        subst he
        simp [hbal]
  · rw [play_invalid db uid bet rnd noFail hb]
    exact ⟨by simp [hb], fun hmem => absurd hmem hb,
      fun user hmem _ => absurd hmem hb⟩

/-- Witness for C6: the allowed bet 0.50 on the empty database yields
exactly the NotFound characterization. -/
theorem playScratchCard_validation_order_witness :
    round2 (1/2) ∈ ALLOWED_BETS ∧
      ((playScratchCard emptyDb 0 (1/2) 0 noFail).result =
          Except.error PlayError.NotFound ↔ emptyDb.users 0 = none) :=
  ⟨by norm_num [round2, ALLOWED_BETS],
    (playScratchCard_validation_order emptyDb 0 (1/2) 0).2.1
      (by norm_num [round2, ALLOWED_BETS])⟩

/-- C3 (amended): every failing round — the three validation failures and
a storage failure at any step, under any failure oracle — leaves the whole
database unchanged (so balances, rollovers and the round history are
untouched); the `InvalidBet` validation failure is detected before the
transaction begins and issues no storage operation at all; but `NotFound`
and `InsufficientFunds` are detected inside the transaction, after the
`SELECT … FOR UPDATE` row lock has been acquired, and end with a
rollback. -/
theorem playScratchCard_failure_atomic (db : Db) (uid : Nat) (bet rnd : ℚ)
    (failAt : Nat → Bool) (e : PlayError) (out : PlayOutcome)
    (hout : playScratchCard db uid bet rnd failAt = out)
    (h : out.result = Except.error e) :
    out.db = db
    ∧ (e = PlayError.InvalidBet → out.ops = [])
    ∧ ((e = PlayError.NotFound ∨ e = PlayError.InsufficientFunds) →
        out.ops = [StorageOp.beginTx, StorageOp.selectForUpdate,
          StorageOp.rollback]) := by
  unfold playScratchCard at hout
  repeat' split at hout
  all_goals subst hout
  all_goals simp_all
  all_goals (subst h; simp)

/-- Witness for C3 (amended): the NotFound failure on the empty database
leaves it unchanged. -/
theorem playScratchCard_failure_atomic_witness :
    (⟨Except.error PlayError.NotFound, emptyDb,
        [StorageOp.beginTx, StorageOp.selectForUpdate, StorageOp.rollback]⟩ :
      PlayOutcome).db = emptyDb :=
  (playScratchCard_failure_atomic emptyDb 0 (1/2) 0 noFail PlayError.NotFound
    ⟨Except.error PlayError.NotFound, emptyDb,
      [StorageOp.beginTx, StorageOp.selectForUpdate, StorageOp.rollback]⟩
    (play_notFound emptyDb 0 (1/2) 0 (by norm_num [round2, ALLOWED_BETS]) rfl)
    rfl).1

/-- Counterexample to C3 as stated: on the empty database the `NotFound`
validation failure is detected only inside the transaction — its storage
trace is the full `BEGIN`, `SELECT … FOR UPDATE`, `ROLLBACK` sequence, so
this validation failure does acquire the row lock and does touch storage,
contrary to the claim that all three validation failures are detected
before the transaction begins and never acquire the lock. -/
theorem playScratchCard_validation_locks :
    (playScratchCard emptyDb 0 (1/2) 0 noFail).result =
        Except.error PlayError.NotFound
    ∧ (playScratchCard emptyDb 0 (1/2) 0 noFail).ops =
        [StorageOp.beginTx, StorageOp.selectForUpdate, StorageOp.rollback]
    ∧ StorageOp.beginTx ∈ (playScratchCard emptyDb 0 (1/2) 0 noFail).ops
    ∧ StorageOp.selectForUpdate ∈
        (playScratchCard emptyDb 0 (1/2) 0 noFail).ops := by
  norm_num [playScratchCard, noFail, round2, ALLOWED_BETS, emptyDb]

end Raspadinha
